import Mathlib

/-!
Verification of the analytics and bulk-fetch layer of the athlete-insight
web application.

The embedding models the pure computational core of two source files:

* src/components/ActivityDetail.tsx — maximum-heart-rate estimation,
  heart-rate zone construction, zone classification, zone time
  distribution, relative-effort scoring, and the cohort-comparison
  ranking/percentile display.
* src/components/Activities.tsx — the sequential bulk stream backfill
  loop with per-item progress reporting and partial-failure counting.

Modelling conventions:

* JavaScript numbers are modelled as exact rationals (ℚ).  Every number
  reaching these functions in the application is an integer or a small
  rational, far from any double-precision rounding boundary.
* JavaScript Math.round is modelled by jround, floor (x + 1/2), which is
  exactly the ECMAScript round-half-toward-positive-infinity rule.
* A division whose denominator is zero produces NaN or an infinity in
  JavaScript, never a number; such results are modelled by Option with
  none standing for the non-numeric outcome.
* Optional inputs (missing streams, missing birth year) are modelled by
  Option.  The source tests JavaScript truthiness of birth_year, so a
  zero birth year is treated exactly like an absent one.
* The cosmetic name and color strings attached to zones and chart rows
  are dropped; output rows are keyed by the zone index 1..5, matching
  the object keys zone1..zone5 the source iterates over.
-/

/-- JavaScript Math.round: round half toward positive infinity. -/
def jround (q : ℚ) : ℤ := ⌊q + 1/2⌋

/-- One heart-rate zone, as built by getHeartRateZones: an inclusive-upper
band with a lower and an upper bound. -/
structure HRZone where
  min : ℚ
  max : ℚ
deriving DecidableEq

/-- The five zones returned by getHeartRateZones, in source object order. -/
structure HeartRateZones where
  zone1 : HRZone
  zone2 : HRZone
  zone3 : HRZone
  zone4 : HRZone
  zone5 : HRZone
deriving DecidableEq

/-- ActivityDetail.tsx calculateMaxHeartRate: 220 minus age, with age the
current calendar year minus the birth year.  The current year is passed
explicitly here since the source reads the wall clock. -/
def calculateMaxHeartRate (currentYear birthYear : ℤ) : ℤ :=
  220 - (currentYear - birthYear)

/-- ActivityDetail.tsx getHeartRateZones: zone k has upper bound
Math.round(maxHR * f_k) for factors 0.6, 0.7, 0.8, 0.9, except zone 5
whose upper bound is maxHR itself, unrounded; each lower bound repeats
the previous upper bound and zone 1 starts at 0. -/
def getHeartRateZones (maxHR : ℚ) : HeartRateZones :=
  ⟨⟨0, (jround (maxHR * (6/10)) : ℚ)⟩,
   ⟨(jround (maxHR * (6/10)) : ℚ), (jround (maxHR * (7/10)) : ℚ)⟩,
   ⟨(jround (maxHR * (7/10)) : ℚ), (jround (maxHR * (8/10)) : ℚ)⟩,
   ⟨(jround (maxHR * (8/10)) : ℚ), (jround (maxHR * (9/10)) : ℚ)⟩,
   ⟨(jround (maxHR * (9/10)) : ℚ), maxHR⟩⟩

/-- The if-else-if chain shared verbatim by getHeartRateZoneDistribution,
calculateRelativeEffortPoints and loadComparisonData: the first zone whose
upper bound is at least the sample wins, and everything above the zone 4
bound falls into zone 5. -/
def classifyZone (Z : HeartRateZones) (hr : ℚ) : ℕ :=
  if hr ≤ Z.zone1.max then 1
  else if hr ≤ Z.zone2.max then 2
  else if hr ≤ Z.zone3.max then 3
  else if hr ≤ Z.zone4.max then 4
  else 5

/-- Indexing helper: the upper bound of zone k (k = 1..5). -/
def zoneUpperBound (Z : HeartRateZones) (k : ℕ) : ℚ :=
  if k ≤ 1 then Z.zone1.max
  else if k = 2 then Z.zone2.max
  else if k = 3 then Z.zone3.max
  else if k = 4 then Z.zone4.max
  else Z.zone5.max

/-- The zoneMultipliers object of calculateRelativeEffortPoints:
weights 1, 2, 3, 5, 8 for zones 1..5. -/
def zoneMultiplier (k : ℕ) : ℚ :=
  if k = 1 then 1 else if k = 2 then 2 else if k = 3 then 3
  else if k = 4 then 5 else 8

/-- The per-sample time increment used by both analytics functions:
timeData at index i+1 minus timeData at index i while a successor entry
exists (the source condition index < timeData.length - 1 is exactly
i + 1 < length over the natural numbers), and the 1-second fallback
otherwise. -/
def timeIncrement (time : List ℚ) (i : ℕ) : ℚ :=
  if i + 1 < time.length then time.getD (i+1) 0 - time.getD i 0 else 1

/-- Contribution of one sample to totalTimeInZones: its time increment when
the sample is positive (the source guard hr && hr > 0), else nothing. -/
def timeCharge (time : List ℚ) (i : ℕ) (hr : ℚ) : ℚ :=
  if 0 < hr then timeIncrement time i else 0

/-- Contribution of one sample to totalEffortPoints: its time increment
weighted by the multiplier of its zone, for positive samples only. -/
def effortCharge (Z : HeartRateZones) (time : List ℚ) (i : ℕ) (hr : ℚ) : ℚ :=
  if 0 < hr then timeIncrement time i * zoneMultiplier (classifyZone Z hr) else 0

/-- Contribution of one sample to the accumulated time of zone k. -/
def zoneCharge (Z : HeartRateZones) (time : List ℚ) (i : ℕ) (hr : ℚ) (k : ℕ) : ℚ :=
  if 0 < hr ∧ classifyZone Z hr = k then timeIncrement time i else 0

/-- Accumulated seconds of zone k over the heart-rate stream, the
zoneDistribution accumulator of getHeartRateZoneDistribution. -/
def zoneTime (Z : HeartRateZones) (hrs time : List ℚ) (k : ℕ) : ℚ :=
  (hrs.enum.map fun p => zoneCharge Z time p.1 p.2 k).sum

/-- The totalEffortPoints accumulator of calculateRelativeEffortPoints. -/
def totalEffortPoints (Z : HeartRateZones) (hrs time : List ℚ) : ℚ :=
  (hrs.enum.map fun p => effortCharge Z time p.1 p.2).sum

/-- The totalTimeInZones accumulator of calculateRelativeEffortPoints. -/
def totalTimeInZones (hrs time : List ℚ) : ℚ :=
  (hrs.enum.map fun p => timeCharge time p.1 p.2).sum

/-- The percentage denominator of getHeartRateZoneDistribution:
timeData[timeData.length - 1] || 1, that is the last entry of the time
stream, replaced by 1 when the stream is empty or that entry is 0 (both
are JavaScript-falsy). -/
def percentDenom (time : List ℚ) : ℚ :=
  if time.getLastD 0 = 0 then 1 else time.getLastD 0

/-- The chart rows built at the end of getHeartRateZoneDistribution: one
row (k, minutes, percentage) per zone in object order, minutes being the
accumulated seconds divided by 60 and rounded, percentage being the
accumulated seconds over the percentage denominator times 100 and
rounded; rows whose rounded minutes are not positive are filtered out. -/
def zoneDistributionOutput (Z : HeartRateZones) (hrs time : List ℚ) : List (ℕ × ℤ × ℤ) :=
  ((List.range 5).map fun j =>
    (j + 1, jround (zoneTime Z hrs time (j+1) / 60),
     jround (zoneTime Z hrs time (j+1) / percentDenom time * 100))).filter
    fun e => decide (0 < e.2.1)

/-- ActivityDetail.tsx getHeartRateZoneDistribution: returns the empty
list when the heart-rate stream is absent or the birth year is absent or
zero (JavaScript-falsy); otherwise builds the rows from the zones of the
estimated maximum heart rate, with the time stream defaulting to the
empty list. -/
def getHeartRateZoneDistribution (currentYear : ℤ) (hrStream timeStream : Option (List ℚ))
    (birthYear : Option ℤ) : List (ℕ × ℤ × ℤ) :=
  match hrStream, birthYear with
  | some hrs, some y =>
      if y = 0 then []
      else
        zoneDistributionOutput
          (getHeartRateZones ((calculateMaxHeartRate currentYear y : ℤ) : ℚ))
          hrs (timeStream.getD [])
  | _, _ => []

/-- The record returned by calculateRelativeEffortPoints.  The constant
zoneMultipliers field of the source record is the fixed function
zoneMultiplier and is not repeated here. -/
structure EffortResult where
  totalPoints : ℤ
  relativeScore : ℤ
  intensityFactor : ℚ
  timeInZones : ℤ
deriving DecidableEq

/-- ActivityDetail.tsx calculateRelativeEffortPoints: none when the
heart-rate stream is absent or the birth year is absent or zero
(JavaScript-falsy); otherwise the rounded effort points, the hourly
normalized score, the intensity factor rounded to two decimals, and the
classified time in minutes, with the two ratios guarded to 0 when the
classified time is not positive. -/
def calculateRelativeEffortPoints (currentYear : ℤ) (hrStream timeStream : Option (List ℚ))
    (birthYear : Option ℤ) : Option EffortResult :=
  match hrStream, birthYear with
  | some hrs, some y =>
      if y = 0 then none
      else
        let Z := getHeartRateZones ((calculateMaxHeartRate currentYear y : ℤ) : ℚ)
        let time := timeStream.getD []
        let tEP := totalEffortPoints Z hrs time
        let tTIZ := totalTimeInZones hrs time
        some ⟨jround tEP,
              if 0 < tTIZ then jround (tEP / tTIZ * 3600) else 0,
              (jround ((if 0 < tTIZ then tEP / tTIZ / 3 else 0) * 100) : ℚ) / 100,
              jround (tTIZ / 60)⟩
  | _, _ => none

/-- One row of the comparisonResults array of loadComparisonData.  The
date is the activity start date as an integer timestamp (the source
stores a formatted date string and re-parses it for sorting; only its
order matters here), the effort is the rounded effort points, and the
flag marks the subject activity appended last. -/
structure ComparisonEntry where
  id : ℤ
  date : ℤ
  effort : ℤ
  isCurrentActivity : Bool
deriving DecidableEq

/-- The chronological sort at the end of loadComparisonData: stable sort
of the comparison rows by ascending date. -/
def sortComparisonByDate (l : List ComparisonEntry) : List ComparisonEntry :=
  l.insertionSort fun a b => a.date ≤ b.date

/-- The rank displayed by the Your Position block: findIndex of the
subject row in the date-sorted comparison data, plus one.  The theorems
only apply this to lists containing the subject row. -/
def comparisonRank (l : List ComparisonEntry) : ℕ :=
  l.findIdx (fun e => e.isCurrentActivity) + 1

/-- Modelled from the spec for the refinement comparison of claim C1:
the rank as the 1-based position of the subject after sorting the
comparison rows by effort ascending. -/
def specRankByEffort (l : List ComparisonEntry) : ℕ :=
  (l.insertionSort fun a b => a.effort ≤ b.effort).findIdx
    (fun e => e.isCurrentActivity) + 1

/-- The percentile displayed by the Your Position block:
Math.round(((total - rank) / (total - 1)) * 100).  When total = 1 the
denominator is zero and JavaScript yields NaN (or an infinity), never a
number; that outcome is none. -/
def percentileOfRank (total rank : ℤ) : Option ℤ :=
  if total = 1 then none
  else some (jround (((total : ℚ) - (rank : ℚ)) / ((total : ℚ) - 1) * 100))

/-- Observable events of the bulk stream backfill loop of
Activities.tsx fetchAllStreamData: a progress-state report carrying
(current, total), and the attempt to fetch one activity detail with its
outcome. -/
inductive StreamEvent where
  | progress (current total : ℕ)
  | attempt (index : ℕ) (ok : Bool)
deriving DecidableEq

/-- The body of the for loop of fetchAllStreamData, run over the list of
remaining item indices with the success/error counters threaded through:
each iteration first reports progress (i + 1, total), then attempts the
detail fetch for item i, incrementing the matching counter; a failure is
skipped, never propagated. -/
def runFetchLoop (n : ℕ) (ok : ℕ → Bool) : List ℕ → ℕ × ℕ → (ℕ × ℕ) × List StreamEvent
  | [], acc => (acc, [])
  | i :: rest, acc =>
      let r := runFetchLoop n ok rest (if ok i then (acc.1 + 1, acc.2) else (acc.1, acc.2 + 1))
      (r.1, StreamEvent.progress (i+1) n :: StreamEvent.attempt i (ok i) :: r.2)

/-- Activities.tsx fetchAllStreamData over a set of n activities whose
fetch outcomes are given by the oracle ok: returns the final
(successCount, errorCount) pair and the ordered event trace of the loop.
The surrounding function additionally resets the progress indicator to
(0, total) before the loop and to (0, 0) in the finally block; those
housekeeping writes are not per-item progress reports and are left out
of the trace. -/
def fetchAllStreamData (n : ℕ) (ok : ℕ → Bool) : (ℕ × ℕ) × List StreamEvent :=
  runFetchLoop n ok (List.range n) (0, 0)

/-- The trace shape the loop produces: for each item in caller order, a
progress report with current = index + 1 immediately followed by the
fetch attempt. -/
def streamTrace (n : ℕ) (ok : ℕ → Bool) : List StreamEvent :=
  ((List.range n).map fun i =>
    [StreamEvent.progress (i+1) n, StreamEvent.attempt i (ok i)]).flatten

/-- Modelled from the spec for the refinement comparison of claim C9: the
trace shape the spec asserts, with the progress report fired after each
item rather than before it. -/
def specAfterTrace (n : ℕ) (ok : ℕ → Bool) : List StreamEvent :=
  ((List.range n).map fun i =>
    [StreamEvent.attempt i (ok i), StreamEvent.progress (i+1) n]).flatten

/-! ## General helper lemmas -/

theorem jround_mono {a b : ℚ} (h : a ≤ b) : jround a ≤ jround b :=
  Int.floor_le_floor (by linarith)

theorem jround_le_int {x : ℚ} {m : ℤ} (h : x ≤ (m : ℚ)) : jround x ≤ m := by
  show ⌊x + 1/2⌋ ≤ m
  have h1 : x + 1/2 ≤ (1/2 : ℚ) + (m : ℚ) := by linarith
  have h2 := Int.floor_le_floor h1
  rwa [Int.floor_add_int, show ⌊(1/2 : ℚ)⌋ = 0 by norm_num, zero_add] at h2

theorem zoneBounds_mono (m : ℤ) (hm : 0 ≤ m) :
    (getHeartRateZones (m:ℚ)).zone1.max ≤ (getHeartRateZones (m:ℚ)).zone2.max
    ∧ (getHeartRateZones (m:ℚ)).zone2.max ≤ (getHeartRateZones (m:ℚ)).zone3.max
    ∧ (getHeartRateZones (m:ℚ)).zone3.max ≤ (getHeartRateZones (m:ℚ)).zone4.max
    ∧ (getHeartRateZones (m:ℚ)).zone4.max ≤ (getHeartRateZones (m:ℚ)).zone5.max := by
  have hm' : (0:ℚ) ≤ (m:ℚ) := by exact_mod_cast hm
  refine ⟨?_, ?_, ?_, ?_⟩
  · show (jround ((m:ℚ) * (6/10)) : ℚ) ≤ (jround ((m:ℚ) * (7/10)) : ℚ)
    exact_mod_cast jround_mono (by nlinarith)
  · show (jround ((m:ℚ) * (7/10)) : ℚ) ≤ (jround ((m:ℚ) * (8/10)) : ℚ)
    exact_mod_cast jround_mono (by nlinarith)
  · show (jround ((m:ℚ) * (8/10)) : ℚ) ≤ (jround ((m:ℚ) * (9/10)) : ℚ)
    exact_mod_cast jround_mono (by nlinarith)
  · show (jround ((m:ℚ) * (9/10)) : ℚ) ≤ (m:ℚ)
    exact_mod_cast jround_le_int (by nlinarith)

theorem runFetchLoop_spec (n : ℕ) (ok : ℕ → Bool) :
    ∀ (idxs : List ℕ) (acc : ℕ × ℕ),
      (runFetchLoop n ok idxs acc).1.1 = acc.1 + (idxs.filter ok).length
      ∧ (runFetchLoop n ok idxs acc).1.2 = acc.2 + (idxs.filter fun i => !(ok i)).length
      ∧ (runFetchLoop n ok idxs acc).2
          = (idxs.map fun i =>
              [StreamEvent.progress (i+1) n, StreamEvent.attempt i (ok i)]).flatten := by
  intro idxs
  induction idxs with
  | nil => intro acc; simp [runFetchLoop]
  | cons i rest ih =>
      intro acc
      by_cases h : ok i
      · obtain ⟨h1, h2, h3⟩ := ih (acc.1 + 1, acc.2)
        simp [runFetchLoop, h, h1, h2, h3, List.filter_cons]
        omega
      · obtain ⟨h1, h2, h3⟩ := ih (acc.1, acc.2 + 1)
        simp [runFetchLoop, h, h1, h2, h3, List.filter_cons]
        omega

theorem filter_split_length (p : ℕ → Bool) :
    ∀ l : List ℕ, (l.filter p).length + (l.filter fun i => !(p i)).length = l.length := by
  intro l
  induction l with
  | nil => simp
  | cons a t ih => by_cases h : p a <;> simp [List.filter_cons, h] <;> omega

theorem timeIncrement_no_successor (time : List ℚ) (i : ℕ) (h : time.length ≤ i + 1) :
    timeIncrement time i = 1 := by
  simp only [timeIncrement]
  rw [if_neg (by omega)]

theorem enumFrom_indicator_sum :
    ∀ (l : List ℚ) (k : ℕ),
      ((l.enumFrom k).map fun p => if 0 < p.2 then (1:ℚ) else 0).sum
        = ((l.filter fun h => decide (0 < h)).length : ℚ) := by
  intro l
  induction l with
  | nil => intro k; simp
  | cons a t ih =>
      intro k
      by_cases h : 0 < a
      · simp [List.filter_cons, h, ih]
        ring
      · simp [List.filter_cons, h, ih]

theorem totalTimeInZones_no_time (hrs : List ℚ) :
    totalTimeInZones hrs [] = ((hrs.filter fun h => decide (0 < h)).length : ℚ) := by
  have hfun : (fun p : ℕ × ℚ => timeCharge [] p.1 p.2)
      = fun p : ℕ × ℚ => if 0 < p.2 then (1:ℚ) else 0 := by
    funext p
    simp [timeCharge, timeIncrement]
  unfold totalTimeInZones
  rw [hfun]
  simpa [List.enum] using enumFrom_indicator_sum hrs 0

/-! ## Claim theorems -/

/-- C3: when the cohort comparison list has exactly one member the Your
Position block still renders (its guard only requires a nonempty list)
and computes (1 - 1) / (1 - 1), a zero-by-zero division that JavaScript
turns into NaN; the model returns none for that non-numeric outcome.
The code therefore does divide by zero and displays the NaN instead of
omitting the percentile, contradicting the claim. -/
theorem percentile_singleton_nan :
    (sortComparisonByDate [⟨1, 10, 50, true⟩]).length = 1
    ∧ comparisonRank (sortComparisonByDate [⟨1, 10, 50, true⟩]) = 1
    ∧ percentileOfRank 1 1 = none := by
  refine ⟨by decide, by decide, by decide⟩

/-- C8: calculateRelativeEffortPoints signals none whenever the
heart-rate stream or the birth year is absent (a zero birth year is
JavaScript-falsy and counts as absent), and produces a value whenever
both are present, in particular when the stream holds a positive
sample; the function is total, so the null is a signal and no error is
raised. -/
theorem relativeEffort_null_spec :
    (∀ (cy : ℤ) (t : Option (List ℚ)) (b : Option ℤ),
        calculateRelativeEffortPoints cy none t b = none)
    ∧ (∀ (cy : ℤ) (hs t : Option (List ℚ)),
        calculateRelativeEffortPoints cy hs t none = none)
    ∧ (∀ (cy : ℤ) (t : Option (List ℚ)) (hrs : List ℚ),
        calculateRelativeEffortPoints cy (some hrs) t (some 0) = none)
    ∧ (∀ (cy y : ℤ) (t : Option (List ℚ)) (hrs : List ℚ), y ≠ 0 → (∃ h ∈ hrs, 0 < h) →
        (calculateRelativeEffortPoints cy (some hrs) t (some y)).isSome = true) := by
  refine ⟨?_, ?_, ?_, ?_⟩
  · intro cy t b; cases b <;> rfl
  · intro cy hs t; cases hs <;> rfl
  · intro cy t hrs; simp [calculateRelativeEffortPoints]
  · intro cy y t hrs hy hpos
    simp [calculateRelativeEffortPoints, hy]

/-- C8 witness: with current year 2025, birth year 1990, a positive
sample and a time stream, the result is non-null. -/
theorem relativeEffort_null_spec_witness :
    (1990 : ℤ) ≠ 0
    ∧ (calculateRelativeEffortPoints 2025 (some [100]) (some [0]) (some 1990)).isSome = true := by
  refine ⟨by norm_num, relativeEffort_null_spec.2.2.2 2025 1990 (some [0]) [100] (by norm_num) ?_⟩
  exact ⟨100, by simp, by norm_num⟩

/-- C9 (amended): the bulk stream backfill processes the caller-supplied
items sequentially in order; for each item it reports (current, total)
progress with current = position, running 1..total, at the start of the
item (immediately before its fetch attempt, not after it); a failing item
increments the error counter and is skipped; the loop never aborts early
(every item has an attempt event in the trace); and the final counts
satisfy successCount + errorCount = total.  For 5 activities where only
item 3 (index 2) fails, the result is (4, 1) and exactly 5 progress
reports fire, with current 1, 2, 3, 4, 5 in order. -/
theorem fetchAllStreamData_spec (n : ℕ) (ok : ℕ → Bool) :
    (fetchAllStreamData n ok).1.1 = ((List.range n).filter ok).length
    ∧ (fetchAllStreamData n ok).1.2 = ((List.range n).filter fun i => !(ok i)).length
    ∧ (fetchAllStreamData n ok).1.1 + (fetchAllStreamData n ok).1.2 = n
    ∧ (fetchAllStreamData n ok).2 = streamTrace n ok
    ∧ fetchAllStreamData 5 (fun i => decide (i ≠ 2)) =
        ((4, 1), [StreamEvent.progress 1 5, StreamEvent.attempt 0 true,
                  StreamEvent.progress 2 5, StreamEvent.attempt 1 true,
                  StreamEvent.progress 3 5, StreamEvent.attempt 2 false,
                  StreamEvent.progress 4 5, StreamEvent.attempt 3 true,
                  StreamEvent.progress 5 5, StreamEvent.attempt 4 true]) := by
  obtain ⟨h1, h2, h3⟩ := runFetchLoop_spec n ok (List.range n) (0, 0)
  have e1 : (fetchAllStreamData n ok).1.1 = ((List.range n).filter ok).length := by
    simpa [fetchAllStreamData] using h1
  have e2 : (fetchAllStreamData n ok).1.2
      = ((List.range n).filter fun i => !(ok i)).length := by
    simpa [fetchAllStreamData] using h2
  refine ⟨e1, e2, ?_, ?_, by decide⟩
  · rw [e1, e2]
    exact (filter_split_length ok (List.range n)).trans (List.length_range n)
  · simpa [fetchAllStreamData, streamTrace] using h3

/-- C9 counterexample: already for a single always-succeeding item the
loop trace reports progress strictly before the item is processed, so
the trace differs from the progress-after-each-item trace the claim
asserts. -/
theorem fetchAllStreamData_progress_order_cex :
    (fetchAllStreamData 1 (fun _ => true)).2
        = [StreamEvent.progress 1 1, StreamEvent.attempt 0 true]
    ∧ specAfterTrace 1 (fun _ => true)
        = [StreamEvent.attempt 0 true, StreamEvent.progress 1 1]
    ∧ (fetchAllStreamData 1 (fun _ => true)).2 ≠ specAfterTrace 1 (fun _ => true) := by
  refine ⟨by decide, by decide, by decide⟩

/-- C5: in both analytics functions the charge of the sample at index i
is the shared timeIncrement: the difference time[i+1] - time[i] whenever
a successor time entry exists, the 1-second fallback for the final
sample of index-aligned streams; on scenario B (samples 100, 160, 100
at times 0, 30, 60, maxHR 185) the first two samples are charged 30
seconds at the weights of their zones (zone 1 and zone 4) and the third
the 1-second fallback at the zone 1 weight, summing to
totalEffortPoints = 30·1 + 30·5 + 1·1 = 181 over 61 classified
seconds. -/
theorem timeIncrement_charge_spec :
    (∀ (time : List ℚ) (i : ℕ), i + 1 < time.length →
        timeIncrement time i = time.getD (i+1) 0 - time.getD i 0)
    ∧ (∀ (time hrs : List ℚ), time.length = hrs.length → hrs ≠ [] →
        timeIncrement time (hrs.length - 1) = 1)
    ∧ (∀ (Z : HeartRateZones) (time : List ℚ) (i : ℕ) (hr : ℚ), 0 < hr →
        timeCharge time i hr = timeIncrement time i
        ∧ effortCharge Z time i hr = timeIncrement time i * zoneMultiplier (classifyZone Z hr))
    ∧ timeIncrement [0, 30, 60] 0 = 30
    ∧ timeIncrement [0, 30, 60] 1 = 30
    ∧ timeIncrement [0, 30, 60] 2 = 1
    ∧ classifyZone (getHeartRateZones 185) 100 = 1
    ∧ classifyZone (getHeartRateZones 185) 160 = 4
    ∧ totalEffortPoints (getHeartRateZones 185) [100, 160, 100] [0, 30, 60]
        = 30 * zoneMultiplier 1 + 30 * zoneMultiplier 4 + 1 * zoneMultiplier 1
    ∧ totalTimeInZones [100, 160, 100] [0, 30, 60] = 61 := by
  refine ⟨?_, ?_, ?_, ?_, ?_, ?_, ?_, ?_, ?_, ?_⟩
  · intro time i h
    simp only [timeIncrement]
    rw [if_pos h]
  · intro time hrs hlen hne
    have hne' : hrs.length ≠ 0 := by simpa [List.length_eq_zero] using hne
    exact timeIncrement_no_successor time _ (by omega)
  · intro Z time i hr h
    exact ⟨by simp [timeCharge, h], by simp [effortCharge, h]⟩
  · norm_num [timeIncrement]
  · norm_num [timeIncrement]
  · norm_num [timeIncrement]
  · norm_num [classifyZone, getHeartRateZones, jround]
  · norm_num [classifyZone, getHeartRateZones, jround]
  · norm_num [totalEffortPoints, effortCharge, getHeartRateZones, jround, classifyZone,
      timeIncrement, zoneMultiplier, List.enum]
  · norm_num [totalTimeInZones, timeCharge, timeIncrement, List.enum]

/-- C5 witness: the general increment rules instantiated on the
scenario B streams. -/
theorem timeIncrement_charge_spec_witness :
    timeIncrement [0, 30, 60] 0 = ([0, 30, 60] : List ℚ).getD 1 0 - ([0, 30, 60] : List ℚ).getD 0 0
    ∧ timeIncrement [0, 30, 60] (([100, 160, 100] : List ℚ).length - 1) = 1 := by
  refine ⟨timeIncrement_charge_spec.1 [0, 30, 60] 0 (by norm_num), ?_⟩
  exact timeIncrement_charge_spec.2.1 [0, 30, 60] [100, 160, 100] (by norm_num) (by simp)

/-- C7: with both inputs present (nonzero birth year) and a positive
classified time, calculateRelativeEffortPoints returns the rounded
weighted sum of the per-sample charges as totalPoints, the hourly
normalized relativeScore = round(points / seconds · 3600), the
intensityFactor = (points / seconds) / 3 rounded to two decimals, and
the classified minutes; the per-zone weights are the fixed 1, 2, 3, 5,
8. -/
theorem relativeEffort_formula_spec (cy y : ℤ) (hy : y ≠ 0) (hrs time : List ℚ)
    (ht : 0 < totalTimeInZones hrs time) :
    calculateRelativeEffortPoints cy (some hrs) (some time) (some y)
      = some
          ⟨jround (totalEffortPoints
              (getHeartRateZones ((calculateMaxHeartRate cy y : ℤ) : ℚ)) hrs time),
           jround (totalEffortPoints
              (getHeartRateZones ((calculateMaxHeartRate cy y : ℤ) : ℚ)) hrs time
             / totalTimeInZones hrs time * 3600),
           (jround (totalEffortPoints
              (getHeartRateZones ((calculateMaxHeartRate cy y : ℤ) : ℚ)) hrs time
             / totalTimeInZones hrs time / 3 * 100) : ℚ) / 100,
           jround (totalTimeInZones hrs time / 60)⟩
    ∧ zoneMultiplier 1 = 1 ∧ zoneMultiplier 2 = 2 ∧ zoneMultiplier 3 = 3
    ∧ zoneMultiplier 4 = 5 ∧ zoneMultiplier 5 = 8 := by
  refine ⟨?_, rfl, rfl, rfl, rfl, rfl⟩
  simp [calculateRelativeEffortPoints, hy, ht]

/-- C7 witness: scenario B evaluated end to end; 181 effort points over
61 classified seconds give relativeScore 10682, intensityFactor 0.99
and one classified minute. -/
theorem relativeEffort_formula_spec_witness :
    0 < totalTimeInZones [100, 160, 100] [0, 30, 60]
    ∧ calculateRelativeEffortPoints 2025 (some [100, 160, 100]) (some [0, 30, 60]) (some 1990)
        = some ⟨181, 10682, 99/100, 1⟩ := by
  have ht : 0 < totalTimeInZones [100, 160, 100] [0, 30, 60] := by
    norm_num [totalTimeInZones, timeCharge, timeIncrement, List.enum]
  have h := (relativeEffort_formula_spec 2025 1990 (by norm_num) [100, 160, 100] [0, 30, 60] ht).1
  refine ⟨ht, ?_⟩
  rw [h]
  norm_num [totalEffortPoints, totalTimeInZones, effortCharge, timeCharge, getHeartRateZones,
    jround, classifyZone, timeIncrement, zoneMultiplier, calculateMaxHeartRate, List.enum]

/-- C10: with the heart-rate stream and a usable birth year present but
the time stream absent, both analytics functions behave exactly as with
an empty time stream; every sample whose index i satisfies
len(time) <= i + 1 (in particular every sample when the time stream is
empty or shorter) is charged the 1-second fallback; the zone-percentage
denominator is 1 for an empty time stream and is never zero; and with no
time stream the classified seconds equal the count of positive samples.
All functions are total Lean definitions over ℚ, so every returned
number is a finite rational and no exception or NaN arises on these
paths. -/
theorem analytics_total_without_time_spec :
    (∀ (time : List ℚ) (i : ℕ), time.length ≤ i + 1 → timeIncrement time i = 1)
    ∧ percentDenom [] = 1
    ∧ (∀ time : List ℚ, percentDenom time ≠ 0)
    ∧ (∀ (cy y : ℤ) (hrs : List ℚ), y ≠ 0 →
        getHeartRateZoneDistribution cy (some hrs) none (some y)
          = zoneDistributionOutput
              (getHeartRateZones ((calculateMaxHeartRate cy y : ℤ) : ℚ)) hrs []
        ∧ calculateRelativeEffortPoints cy (some hrs) none (some y)
          = calculateRelativeEffortPoints cy (some hrs) (some []) (some y))
    ∧ (∀ hrs : List ℚ, totalTimeInZones hrs []
        = ((hrs.filter fun h => decide (0 < h)).length : ℚ)) := by
  refine ⟨timeIncrement_no_successor, by simp [percentDenom], ?_, ?_, totalTimeInZones_no_time⟩
  · intro time
    unfold percentDenom
    split_ifs with h
    · norm_num
    · exact h
  · intro cy y hrs hy
    constructor
    · simp [getHeartRateZoneDistribution, hy]
    · simp [calculateRelativeEffortPoints, hy]

/-- C10 witness: the fallback rules instantiated on a concrete stream
with no time data. -/
theorem analytics_total_without_time_spec_witness :
    timeIncrement [] 0 = 1
    ∧ getHeartRateZoneDistribution 2025 (some [100]) none (some 1990)
        = zoneDistributionOutput
            (getHeartRateZones ((calculateMaxHeartRate 2025 1990 : ℤ) : ℚ)) [100] []
    ∧ totalTimeInZones [100] []
        = ((([100] : List ℚ).filter fun h => decide (0 < h)).length : ℚ) := by
  have h := analytics_total_without_time_spec
  exact ⟨h.1 [] 0 (by simp), (h.2.2.2.1 2025 1990 [100] (by norm_num)).1, h.2.2.2.2 [100]⟩

/-- C1 (amended): the comparison rows are sorted chronologically (the
sorted list is an ascending-by-date permutation of the rows), and for a
result list of at least two members the Your Position block reports
rank = the 1-based position of the subject row in that date-sorted list
and percentile = round((total - rank) / (total - 1) · 100) computed
from that chronological rank, without division by zero. -/
theorem comparisonPosition_spec (l : List ComparisonEntry)
    (h2 : 2 ≤ (sortComparisonByDate l).length) :
    List.Sorted (fun a b => a.date ≤ b.date) (sortComparisonByDate l)
    ∧ (sortComparisonByDate l).Perm l
    ∧ percentileOfRank ((sortComparisonByDate l).length)
        (comparisonRank (sortComparisonByDate l))
      = some (jround ((((sortComparisonByDate l).length : ℚ)
          - (comparisonRank (sortComparisonByDate l) : ℚ))
          / (((sortComparisonByDate l).length : ℚ) - 1) * 100)) := by
  refine ⟨?_, List.perm_insertionSort _ l, ?_⟩
  · haveI : IsTotal ComparisonEntry (fun a b => a.date ≤ b.date) :=
      ⟨fun a b => le_total a.date b.date⟩
    haveI : IsTrans ComparisonEntry (fun a b => a.date ≤ b.date) :=
      ⟨fun a b c hab hbc => le_trans hab hbc⟩
    exact List.sorted_insertionSort _ l
  · unfold percentileOfRank
    rw [if_neg (by omega)]
    norm_cast

/-- C1 witness: the amended statement instantiated on a two-row list. -/
theorem comparisonPosition_spec_witness :
    2 ≤ (sortComparisonByDate [⟨2, 20, 50, false⟩, ⟨1, 10, 100, true⟩]).length
    ∧ List.Sorted (fun a b => a.date ≤ b.date)
        (sortComparisonByDate [⟨2, 20, 50, false⟩, ⟨1, 10, 100, true⟩]) :=
  ⟨by decide, (comparisonPosition_spec [⟨2, 20, 50, false⟩, ⟨1, 10, 100, true⟩] (by decide)).1⟩

/-- C1 counterexample: two rows, the subject earlier in date but higher
in effort.  The code reports rank 1 (its chronological position) and
percentile 100, while the claimed effort-ascending rank is 2 with
percentile 0. -/
theorem comparisonRank_date_not_effort_cex :
    comparisonRank (sortComparisonByDate [⟨2, 20, 50, false⟩, ⟨1, 10, 100, true⟩]) = 1
    ∧ specRankByEffort (sortComparisonByDate [⟨2, 20, 50, false⟩, ⟨1, 10, 100, true⟩]) = 2
    ∧ percentileOfRank 2 1 = some 100
    ∧ percentileOfRank 2 2 = some 0 := by
  refine ⟨by decide, by decide, ?_, ?_⟩
  · unfold percentileOfRank
    rw [if_neg (by norm_num)]
    norm_num [jround]
  · unfold percentileOfRank
    rw [if_neg (by norm_num)]
    norm_num [jround]

/-- C4 (amended): the five zones are contiguous with zone 1 starting at
0; the upper bounds are Math.round(0.6·maxHR), Math.round(0.7·maxHR),
Math.round(0.8·maxHR), Math.round(0.9·maxHR) — rounded, not exact — and
maxHR itself for zone 5, exactly; for a nonnegative integer maxHR the
bounds are non-decreasing; and for birth year 1990 in year 2025 the
maximum heart rate is 185 with bounds 111, 130, 148, 167, 185. -/
theorem zone_bounds_spec (m : ℤ) (hm : 0 ≤ m) :
    (getHeartRateZones (m:ℚ)).zone1.min = 0
    ∧ (getHeartRateZones (m:ℚ)).zone2.min = (getHeartRateZones (m:ℚ)).zone1.max
    ∧ (getHeartRateZones (m:ℚ)).zone3.min = (getHeartRateZones (m:ℚ)).zone2.max
    ∧ (getHeartRateZones (m:ℚ)).zone4.min = (getHeartRateZones (m:ℚ)).zone3.max
    ∧ (getHeartRateZones (m:ℚ)).zone5.min = (getHeartRateZones (m:ℚ)).zone4.max
    ∧ (getHeartRateZones (m:ℚ)).zone1.max = (jround ((m:ℚ) * (6/10)) : ℚ)
    ∧ (getHeartRateZones (m:ℚ)).zone2.max = (jround ((m:ℚ) * (7/10)) : ℚ)
    ∧ (getHeartRateZones (m:ℚ)).zone3.max = (jround ((m:ℚ) * (8/10)) : ℚ)
    ∧ (getHeartRateZones (m:ℚ)).zone4.max = (jround ((m:ℚ) * (9/10)) : ℚ)
    ∧ (getHeartRateZones (m:ℚ)).zone5.max = (m:ℚ)
    ∧ ((getHeartRateZones (m:ℚ)).zone1.max ≤ (getHeartRateZones (m:ℚ)).zone2.max
       ∧ (getHeartRateZones (m:ℚ)).zone2.max ≤ (getHeartRateZones (m:ℚ)).zone3.max
       ∧ (getHeartRateZones (m:ℚ)).zone3.max ≤ (getHeartRateZones (m:ℚ)).zone4.max
       ∧ (getHeartRateZones (m:ℚ)).zone4.max ≤ (getHeartRateZones (m:ℚ)).zone5.max)
    ∧ calculateMaxHeartRate 2025 1990 = 185
    ∧ getHeartRateZones ((185:ℤ) : ℚ)
        = ⟨⟨0, 111⟩, ⟨111, 130⟩, ⟨130, 148⟩, ⟨148, 167⟩, ⟨167, 185⟩⟩ := by
  refine ⟨rfl, rfl, rfl, rfl, rfl, rfl, rfl, rfl, rfl, rfl, zoneBounds_mono m hm,
    by norm_num [calculateMaxHeartRate], by norm_num [getHeartRateZones, jround]⟩

/-- C4 witness: the amended statement instantiated at maxHR 185. -/
theorem zone_bounds_spec_witness :
    (0:ℤ) ≤ 185
    ∧ (getHeartRateZones ((185:ℤ):ℚ)).zone4.max ≤ (getHeartRateZones ((185:ℤ):ℚ)).zone5.max := by
  have h := zone_bounds_spec 185 (by norm_num)
  exact ⟨by norm_num, h.2.2.2.2.2.2.2.2.2.2.1.2.2.2⟩

/-- C4 counterexample: at the scenario maxHR 185 the zone 2 upper bound
is 130, not exactly 0.7·185 = 129.5, refuting the exact-bounds reading
of the claim. -/
theorem zone_bounds_rounded_cex :
    (getHeartRateZones ((185:ℤ):ℚ)).zone2.max = 130
    ∧ (getHeartRateZones ((185:ℤ):ℚ)).zone2.max ≠ (7/10 : ℚ) * 185 := by
  constructor <;> norm_num [getHeartRateZones, jround]

/-- C2 (amended): every output row of the zone time distribution carries
the accumulated zone seconds rounded to minutes and a percentage of
round(zoneSeconds / D · 100) where D is the last entry of the time
stream (1 when the stream is empty or that entry is 0) — not the total
classified seconds — and a zone is omitted exactly when its rounded
minutes are 0, so zones with a nonzero accumulated time below 30
seconds are omitted too. -/
theorem zoneDistribution_spec (cy y : ℤ) (hy : y ≠ 0) (hrs time : List ℚ) :
    getHeartRateZoneDistribution cy (some hrs) (some time) (some y)
      = zoneDistributionOutput
          (getHeartRateZones ((calculateMaxHeartRate cy y : ℤ) : ℚ)) hrs time
    ∧ (∀ (k : ℕ) (mins pct : ℤ),
        (k, mins, pct) ∈ zoneDistributionOutput
            (getHeartRateZones ((calculateMaxHeartRate cy y : ℤ) : ℚ)) hrs time
          ↔ (1 ≤ k ∧ k ≤ 5
             ∧ mins = jround (zoneTime
                 (getHeartRateZones ((calculateMaxHeartRate cy y : ℤ) : ℚ)) hrs time k / 60)
             ∧ 0 < mins
             ∧ pct = jround (zoneTime
                 (getHeartRateZones ((calculateMaxHeartRate cy y : ℤ) : ℚ)) hrs time k
                 / percentDenom time * 100)))
    ∧ percentDenom time = (if time.getLastD 0 = 0 then 1 else time.getLastD 0) := by
  refine ⟨by simp [getHeartRateZoneDistribution, hy], ?_, rfl⟩
  intro k mins pct
  constructor
  · intro hmem
    simp only [zoneDistributionOutput, List.mem_filter, List.mem_map, List.mem_range,
      decide_eq_true_eq] at hmem
    obtain ⟨⟨j, hj, heq⟩, hpos⟩ := hmem
    have hk : j + 1 = k := congrArg Prod.fst heq
    have hm : jround (zoneTime
        (getHeartRateZones ((calculateMaxHeartRate cy y : ℤ) : ℚ)) hrs time (j+1) / 60)
        = mins := congrArg (fun p => p.2.1) heq
    have hp : jround (zoneTime
        (getHeartRateZones ((calculateMaxHeartRate cy y : ℤ) : ℚ)) hrs time (j+1)
        / percentDenom time * 100) = pct := congrArg (fun p => p.2.2) heq
    subst hk
    exact ⟨by omega, by omega, hm.symm, hpos, hp.symm⟩
  · rintro ⟨hk1, hk5, hm, hpos, hp⟩
    simp only [zoneDistributionOutput, List.mem_filter, List.mem_map, List.mem_range,
      decide_eq_true_eq]
    refine ⟨⟨k - 1, by omega, ?_⟩, by simpa using hpos⟩
    have hkk : k - 1 + 1 = k := by omega
    rw [hkk, hm, hp]

/-- C2 witness: the row characterization instantiated on the
counterexample streams. -/
theorem zoneDistribution_spec_witness :
    (1990:ℤ) ≠ 0
    ∧ getHeartRateZoneDistribution 2025 (some [100, 160]) (some [0, 30]) (some 1990)
        = zoneDistributionOutput
            (getHeartRateZones ((calculateMaxHeartRate 2025 1990 : ℤ) : ℚ)) [100, 160] [0, 30] :=
  ⟨by norm_num, (zoneDistribution_spec 2025 1990 (by norm_num) [100, 160] [0, 30]).1⟩

/-- C2 counterexample: heart rates 100, 160 at times 0, 30 with maxHR
185.  Zone 4 accumulates 1 second (nonzero) yet is omitted from the
output, and the zone 1 percentage reported is 100 (denominator 30, the
last time entry) while the claimed share of the 31 classified seconds
would be 97. -/
theorem zoneDistribution_percentage_omission_cex :
    zoneTime (getHeartRateZones ((calculateMaxHeartRate 2025 1990 : ℤ) : ℚ))
        [100, 160] [0, 30] 4 = 1
    ∧ getHeartRateZoneDistribution 2025 (some [100, 160]) (some [0, 30]) (some 1990)
        = [(1, 1, 100)]
    ∧ totalTimeInZones [100, 160] [0, 30] = 31
    ∧ jround (zoneTime (getHeartRateZones ((calculateMaxHeartRate 2025 1990 : ℤ) : ℚ))
        [100, 160] [0, 30] 1 / totalTimeInZones [100, 160] [0, 30] * 100) = 97 := by
  refine ⟨?_, ?_, ?_, ?_⟩
  · norm_num [zoneTime, zoneCharge, getHeartRateZones, jround, classifyZone,
      timeIncrement, calculateMaxHeartRate, List.enum]
  · norm_num [getHeartRateZoneDistribution, zoneDistributionOutput, zoneTime, zoneCharge,
      percentDenom, getHeartRateZones, jround, classifyZone, timeIncrement,
      calculateMaxHeartRate, List.enum, List.range_succ]
  · norm_num [totalTimeInZones, timeCharge, timeIncrement, List.enum]
  · norm_num [zoneTime, zoneCharge, totalTimeInZones, timeCharge, getHeartRateZones,
      jround, classifyZone, timeIncrement, calculateMaxHeartRate, List.enum]

/-- C6: every positive sample is classified into exactly one zone index
in 1..5; whenever some zone bound covers the sample (h at most maxHR,
the zone 5 bound), the chosen zone is the lowest one whose upper bound
is at least the sample; samples above the zone 4 bound — including
values above maxHR — fall into zone 5; and nonpositive samples
contribute nothing to any accumulator of either analytics function. -/
theorem classifyZone_spec (m : ℤ) (hm : 0 ≤ m) (h : ℚ) (_hpos : 0 < h) :
    (1 ≤ classifyZone (getHeartRateZones (m:ℚ)) h
     ∧ classifyZone (getHeartRateZones (m:ℚ)) h ≤ 5)
    ∧ (h ≤ zoneUpperBound (getHeartRateZones (m:ℚ)) 5 →
        h ≤ zoneUpperBound (getHeartRateZones (m:ℚ)) (classifyZone (getHeartRateZones (m:ℚ)) h)
        ∧ ∀ k, 1 ≤ k → h ≤ zoneUpperBound (getHeartRateZones (m:ℚ)) k →
            classifyZone (getHeartRateZones (m:ℚ)) h ≤ k)
    ∧ (zoneUpperBound (getHeartRateZones (m:ℚ)) 4 < h →
        classifyZone (getHeartRateZones (m:ℚ)) h = 5)
    ∧ (∀ (time : List ℚ) (i : ℕ) (hr : ℚ), hr ≤ 0 →
        timeCharge time i hr = 0
        ∧ effortCharge (getHeartRateZones (m:ℚ)) time i hr = 0
        ∧ ∀ k, zoneCharge (getHeartRateZones (m:ℚ)) time i hr k = 0) := by
  obtain ⟨m12, m23, m34, m45⟩ := zoneBounds_mono m hm
  have u1 : zoneUpperBound (getHeartRateZones (m:ℚ)) 1 = (getHeartRateZones (m:ℚ)).zone1.max := rfl
  have u2 : zoneUpperBound (getHeartRateZones (m:ℚ)) 2 = (getHeartRateZones (m:ℚ)).zone2.max := rfl
  have u3 : zoneUpperBound (getHeartRateZones (m:ℚ)) 3 = (getHeartRateZones (m:ℚ)).zone3.max := rfl
  have u4 : zoneUpperBound (getHeartRateZones (m:ℚ)) 4 = (getHeartRateZones (m:ℚ)).zone4.max := rfl
  have u5 : zoneUpperBound (getHeartRateZones (m:ℚ)) 5 = (getHeartRateZones (m:ℚ)).zone5.max := rfl
  have hcharge : ∀ (time : List ℚ) (i : ℕ) (hr : ℚ), hr ≤ 0 →
      timeCharge time i hr = 0
      ∧ effortCharge (getHeartRateZones (m:ℚ)) time i hr = 0
      ∧ ∀ k, zoneCharge (getHeartRateZones (m:ℚ)) time i hr k = 0 := by
    intro time i hr hle
    have hn : ¬ (0 < hr) := not_lt.mpr hle
    exact ⟨by simp [timeCharge, hn], by simp [effortCharge, hn],
      fun k => by simp [zoneCharge, hn]⟩
  by_cases h1 : h ≤ (getHeartRateZones (m:ℚ)).zone1.max
  · have hc : classifyZone (getHeartRateZones (m:ℚ)) h = 1 := by simp [classifyZone, h1]
    rw [hc]
    refine ⟨⟨le_refl 1, by norm_num⟩,
      fun hub5 => ⟨by rw [u1]; exact h1, fun k hk _ => hk⟩, fun hub4 => ?_, hcharge⟩
    exfalso
    rw [u4] at hub4
    linarith
  · by_cases h2 : h ≤ (getHeartRateZones (m:ℚ)).zone2.max
    · have hc : classifyZone (getHeartRateZones (m:ℚ)) h = 2 := by simp [classifyZone, h1, h2]
      rw [hc]
      refine ⟨⟨by norm_num, by norm_num⟩,
        fun hub5 => ⟨by rw [u2]; exact h2, ?_⟩, fun hub4 => ?_, hcharge⟩
      · intro k hk hub
        by_contra hlt
        have hk1 : k = 1 := by omega
        subst hk1
        rw [u1] at hub
        exact h1 hub
      · exfalso
        rw [u4] at hub4
        linarith
    · by_cases h3 : h ≤ (getHeartRateZones (m:ℚ)).zone3.max
      · have hc : classifyZone (getHeartRateZones (m:ℚ)) h = 3 := by
          simp [classifyZone, h1, h2, h3]
        rw [hc]
        refine ⟨⟨by norm_num, by norm_num⟩,
          fun hub5 => ⟨by rw [u3]; exact h3, ?_⟩, fun hub4 => ?_, hcharge⟩
        · intro k hk hub
          by_contra hlt
          have hk12 : k = 1 ∨ k = 2 := by omega
          rcases hk12 with rfl | rfl
          · rw [u1] at hub
            exact h1 hub
          · rw [u2] at hub
            exact h2 hub
        · exfalso
          rw [u4] at hub4
          linarith
      · by_cases h4 : h ≤ (getHeartRateZones (m:ℚ)).zone4.max
        · have hc : classifyZone (getHeartRateZones (m:ℚ)) h = 4 := by
            simp [classifyZone, h1, h2, h3, h4]
          rw [hc]
          refine ⟨⟨by norm_num, by norm_num⟩,
            fun hub5 => ⟨by rw [u4]; exact h4, ?_⟩, fun hub4 => ?_, hcharge⟩
          · intro k hk hub
            by_contra hlt
            have hk123 : k = 1 ∨ k = 2 ∨ k = 3 := by omega
            rcases hk123 with rfl | rfl | rfl
            · rw [u1] at hub
              exact h1 hub
            · rw [u2] at hub
              exact h2 hub
            · rw [u3] at hub
              exact h3 hub
          · exfalso
            rw [u4] at hub4
            linarith
        · have hc : classifyZone (getHeartRateZones (m:ℚ)) h = 5 := by
            simp [classifyZone, h1, h2, h3, h4]
          rw [hc]
          refine ⟨⟨by norm_num, le_refl 5⟩,
            fun hub5 => ⟨by rw [u5]; rw [u5] at hub5; exact hub5, ?_⟩,
            fun _ => rfl, hcharge⟩
          intro k hk hub
          by_contra hlt
          have hk1234 : k = 1 ∨ k = 2 ∨ k = 3 ∨ k = 4 := by omega
          rcases hk1234 with rfl | rfl | rfl | rfl
          · rw [u1] at hub
            exact h1 hub
          · rw [u2] at hub
            exact h2 hub
          · rw [u3] at hub
            exact h3 hub
          · rw [u4] at hub
            exact h4 hub

/-- C6 witness: a 100 bpm sample against the zones of maxHR 185 is
classified, and into zone 1. -/
theorem classifyZone_spec_witness :
    (0:ℤ) ≤ 185 ∧ (0:ℚ) < 100
    ∧ (1 ≤ classifyZone (getHeartRateZones ((185:ℤ):ℚ)) 100
       ∧ classifyZone (getHeartRateZones ((185:ℤ):ℚ)) 100 ≤ 5) := by
  have h := classifyZone_spec 185 (by norm_num) 100 (by norm_num)
  exact ⟨by norm_num, by norm_num, h.1⟩

/-- C9 witness: the count identity instantiated on the five-item
scenario with item 3 failing. -/
theorem fetchAllStreamData_spec_witness :
    (fetchAllStreamData 5 (fun i => decide (i ≠ 2))).1.1
        + (fetchAllStreamData 5 (fun i => decide (i ≠ 2))).1.2 = 5 :=
  (fetchAllStreamData_spec 5 (fun i => decide (i ≠ 2))).2.2.1
